import Mathlib

/-!
# Verification of the PV/BESS feasibility-study calculation engines

Shallow embedding of the two calculator modules of the repository
(`bess_calculator.py` and `economic_calculator.py`) over exact rational
arithmetic, together with proofs and refutations of the specification's
claims about them.

Python floats are modelled as `ℚ` (exact arithmetic), Python lists as
`List ℚ`, Python dicts returned by the private helpers as Lean structures
whose fields are the dict keys, and Python exceptions as `Except PyErr`.
`float('inf')` sentinels are modelled as `⊤` in `WithTop ℚ`.
-/

/-- Python-level runtime errors raised by the embedded code.
`invalidInput` is the validation error the specification postulates; the
source never raises it (no such class exists in the code), it is included
so that statements about it can be expressed. -/
inductive PyErr where
  | typeError (msg : String)
  | attributeError (msg : String)
  | unboundLocal (msg : String)
  | invalidInput (msg : String)

/-- `true` iff the error is the specification's `InvalidInputError`. -/
def PyErr.isInvalidInput : PyErr → Bool
  | .invalidInput _ => true
  | _ => false

namespace BESS

/-- `BESSParameters` dataclass of `bess_calculator.py` (lines 11-20). -/
structure BESSParameters where
  dod : ℚ := 0.8
  c_rate : ℚ := 0.5
  efficiency : ℚ := 0.95
  cycle_life : ℤ := 6000
  capex_per_kwh : ℚ := 500
  opex_annual_percent : ℚ := 1
  degradation_annual : ℚ := 0.02

/-- `ConsumptionProfile` dataclass of `bess_calculator.py` (lines 22-29). -/
structure ConsumptionProfile where
  monthly_kwh : List ℚ
  f1_percent : ℚ := 0.33
  f2_percent : ℚ := 0.33
  f3_percent : ℚ := 0.34
  granularity : String := "monthly"

/-- `BESSResults` dataclass of `bess_calculator.py` (lines 31-49). -/
structure BESSResults where
  optimal_capacity_kwh : ℚ
  optimal_power_kw : ℚ
  annual_self_consumption_increase : ℚ
  annual_grid_reduction : ℚ
  annual_grid_export_increase : ℚ
  daily_cycles : ℚ
  total_cycles_20_years : ℚ
  capacity_retention_20_years : ℚ
  average_soc : ℚ
  energy_throughput_annual : ℚ
  monthly_battery_usage : List ℚ
  self_consumption_rate_improvement : ℚ

/-- The methods actually defined on the `BESSCalculator` class
(`bess_calculator.py` lines 51-408). -/
def definedMethods : List String :=
  ["__init__", "calculate_optimal_bess", "_calculate_baseline_scenario",
   "_optimize_bess_capacity", "_calculate_bess_scenario",
   "_calculate_economics", "_calculate_technical_metrics",
   "_calculate_npv_simple", "_calculate_irr_approximation"]

/-- The monthly self-consumption list built by `_calculate_baseline_scenario`
(lines 144-147): per month, the minimum of production and consumption. -/
def monthly_self_consumption (pv_production consumption : List ℚ) : List ℚ :=
  (List.range 12).map (fun i => min (pv_production.getD i 0) (consumption.getD i 0))

/-- The monthly grid-import list of `_calculate_baseline_scenario`
(lines 149-151). -/
def monthly_grid_import (pv_production consumption : List ℚ) : List ℚ :=
  (List.range 12).map (fun i => max 0 (consumption.getD i 0 - pv_production.getD i 0))

/-- The monthly grid-export list of `_calculate_baseline_scenario`
(lines 153-155). -/
def monthly_grid_export (pv_production consumption : List ℚ) : List ℚ :=
  (List.range 12).map (fun i => max 0 (pv_production.getD i 0 - consumption.getD i 0))

/-- The dict returned by `_calculate_baseline_scenario` (lines 166-176). -/
structure BaselineScenario where
  annual_pv_production : ℚ
  annual_consumption : ℚ
  annual_self_consumption : ℚ
  annual_grid_import : ℚ
  annual_grid_export : ℚ
  annual_electricity_cost : ℚ
  annual_feed_in_revenue : ℚ
  annual_net_cost : ℚ
  self_consumption_rate : ℚ

/-- `_calculate_baseline_scenario` of `bess_calculator.py` (lines 127-176).
It has four positional parameters besides `self`; none has a default. -/
def calculate_baseline_scenario (pv_production consumption : List ℚ)
    (electricity_price feed_in_tariff : ℚ) : BaselineScenario :=
  let annual_pv_production := pv_production.sum
  let annual_consumption := consumption.sum
  let annual_self_consumption := (monthly_self_consumption pv_production consumption).sum
  let annual_grid_import := (monthly_grid_import pv_production consumption).sum
  let annual_grid_export := (monthly_grid_export pv_production consumption).sum
  let annual_electricity_cost := annual_grid_import * electricity_price
  let annual_feed_in_revenue := annual_grid_export * feed_in_tariff
  { annual_pv_production := annual_pv_production
    annual_consumption := annual_consumption
    annual_self_consumption := annual_self_consumption
    annual_grid_import := annual_grid_import
    annual_grid_export := annual_grid_export
    annual_electricity_cost := annual_electricity_cost
    annual_feed_in_revenue := annual_feed_in_revenue
    annual_net_cost := annual_electricity_cost - annual_feed_in_revenue
    self_consumption_rate :=
      if annual_pv_production > 0 then annual_self_consumption / annual_pv_production else 0 }

/-- Number of non-`self` positional parameters of
`_calculate_baseline_scenario` (lines 127-133); none has a default value. -/
def baselineScenarioParamCount : Nat := 4

/-- Number of arguments that `calculate_optimal_bess` passes to
`_calculate_baseline_scenario` at its call site (lines 76-79). -/
def baselineScenarioCallArgCount : Nat := 2

/-- The `TypeError` Python raises for the 2-versus-4 argument call. -/
def baselineArityError : PyErr :=
  PyErr.typeError
    "_calculate_baseline_scenario() missing 2 required positional arguments: 'electricity_price' and 'feed_in_tariff'"

/-- `calculate_optimal_bess` of `bess_calculator.py` (lines 57-125).
Its first step calls `self._calculate_baseline_scenario` with 2 arguments
while that method has 4 required positional parameters, so the call raises
`TypeError`; the `except` clause (lines 123-125) logs and re-raises it.
Were the arity to match, the next step (line 82) would look up the
attribute `_optimize_bess_capacity_technical`, which is not defined on the
class, and raise `AttributeError`. -/
def calculate_optimal_bess (_pv_production_monthly : List ℚ)
    (_consumption_profile : ConsumptionProfile) (_bess_params : BESSParameters) :
    Except PyErr BESSResults :=
  if baselineScenarioCallArgCount = baselineScenarioParamCount then
    Except.error (PyErr.attributeError
      "'BESSCalculator' object has no attribute '_optimize_bess_capacity_technical'")
  else
    Except.error baselineArityError

/-- The dict returned by `_calculate_technical_metrics` (lines 385-389). -/
structure TechnicalMetrics where
  daily_cycles : ℚ
  total_cycles_20_years : ℚ
  capacity_retention_20_years : ℚ

/-- `_calculate_technical_metrics` of `bess_calculator.py` (lines 366-389). -/
def calculate_technical_metrics (bess_capacity daily_throughput : ℚ)
    (bess_params : BESSParameters) : TechnicalMetrics :=
  let usable_capacity := bess_capacity * bess_params.dod
  let daily_cycles :=
    if usable_capacity > 0 then daily_throughput / (2 * usable_capacity) else 0
  let degradation_total := min 0.8 (bess_params.degradation_annual * 20)
  { daily_cycles := daily_cycles
    total_cycles_20_years := daily_cycles * 365 * 20
    capacity_retention_20_years := 1 - degradation_total }

/-- The sum `Σ_{year=1..years} annual_cashflow / (1+discount_rate)^year`
accumulated by the loop of `_calculate_npv_simple` (lines 394-395). -/
def npvYearsSum (annual_cashflow discount_rate : ℚ) : Nat → ℚ
  | 0 => 0
  | n + 1 => npvYearsSum annual_cashflow discount_rate n
      + annual_cashflow / (1 + discount_rate) ^ (n + 1)

/-- `_calculate_npv_simple` of `bess_calculator.py` (lines 391-396). -/
def calculate_npv_simple (annual_cashflow initial_investment discount_rate : ℚ)
    (years : Nat) : ℚ :=
  -initial_investment + npvYearsSum annual_cashflow discount_rate years

/-- The `days_in_month` table of `_calculate_bess_scenario` (line 250). -/
def days_in_month : List ℚ := [31, 28, 31, 30, 31, 30, 31, 31, 30, 31, 30, 31]

/-- One month's entry of the `monthly_results` list of
`_calculate_bess_scenario` (lines 287-292). -/
structure MonthResult where
  self_consumption : ℚ
  grid_import : ℚ
  grid_export : ℚ
  throughput : ℚ

/-- One iteration of the month loop of `_calculate_bess_scenario`
(lines 245-292).  The local variable `battery_discharge` is assigned only
in the deficit branch; in a surplus month it still holds the value left by
the latest deficit month (Python function-level scoping), and if no
deficit month has occurred yet, line 284 raises `UnboundLocalError`.  The
`Option ℚ` state threads that variable. -/
def monthStep (pv_production consumption : List ℚ) (usable_capacity efficiency : ℚ)
    (battery_discharge_st : Option ℚ) (i : Nat) :
    Except PyErr (MonthResult × Option ℚ) :=
  let days := days_in_month.getD i 0
  let daily_pv := pv_production.getD i 0 / days
  let daily_consumption := consumption.getD i 0 / days
  if daily_consumption < daily_pv then
    -- excess production: charge the battery
    let excess := daily_pv - daily_consumption
    let battery_charge := min excess usable_capacity * efficiency
    let remaining_excess := max 0 (excess - usable_capacity / efficiency)
    let daily_self_consumption := daily_consumption + (excess - remaining_excess)
    match battery_discharge_st with
    | none => Except.error (PyErr.unboundLocal
        "local variable 'battery_discharge' referenced before assignment")
    | some battery_discharge =>
        Except.ok ({ self_consumption := daily_self_consumption * days
                     grid_import := 0
                     grid_export := remaining_excess * days
                     throughput := (battery_charge + battery_discharge) * days },
                   some battery_discharge)
  else
    -- production deficit: discharge the battery
    let deficit := daily_consumption - daily_pv
    let battery_discharge := min deficit usable_capacity
    let remaining_deficit := max 0 (deficit - battery_discharge)
    let daily_self_consumption := daily_pv + battery_discharge
    let battery_charge : ℚ := 0
    Except.ok ({ self_consumption := daily_self_consumption * days
                 grid_import := remaining_deficit * days
                 grid_export := 0
                 throughput := (battery_charge + battery_discharge) * days },
               some battery_discharge)

/-- The month loop of `_calculate_bess_scenario`, threading the
`battery_discharge` state through the listed month indices. -/
def dispatchMonths (pv_production consumption : List ℚ)
    (usable_capacity efficiency : ℚ) :
    List Nat → Option ℚ → Except PyErr (List MonthResult)
  | [], _ => Except.ok []
  | i :: rest, st =>
    match monthStep pv_production consumption usable_capacity efficiency st i with
    | Except.error e => Except.error e
    | Except.ok (m, st') =>
        (dispatchMonths pv_production consumption usable_capacity efficiency rest st').map
          (fun ms => m :: ms)

/-- The dict returned by `_calculate_bess_scenario` (lines 307-317). -/
structure BessScenario where
  annual_self_consumption : ℚ
  annual_grid_import : ℚ
  annual_grid_export : ℚ
  annual_electricity_cost : ℚ
  annual_feed_in_revenue : ℚ
  annual_net_cost : ℚ
  annual_savings : ℚ
  daily_energy_throughput : ℚ
  monthly_results : List MonthResult

/-- `_calculate_bess_scenario` of `bess_calculator.py` (lines 228-317).
Note line 305: the returned `annual_savings` is the literal `0`
("Sarà calcolato nel confronto" — to be filled in externally). -/
def calculate_bess_scenario (pv_production consumption : List ℚ) (bess_capacity : ℚ)
    (bess_params : BESSParameters) (electricity_price feed_in_tariff : ℚ) :
    Except PyErr BessScenario :=
  let usable_capacity := bess_capacity * bess_params.dod
  match dispatchMonths pv_production consumption usable_capacity
      bess_params.efficiency (List.range 12) none with
  | Except.error e => Except.error e
  | Except.ok monthly_results =>
    let annual_self_consumption := (monthly_results.map (·.self_consumption)).sum
    let annual_grid_import := (monthly_results.map (·.grid_import)).sum
    let annual_grid_export := (monthly_results.map (·.grid_export)).sum
    let annual_electricity_cost := annual_grid_import * electricity_price
    let annual_feed_in_revenue := annual_grid_export * feed_in_tariff
    Except.ok
      { annual_self_consumption := annual_self_consumption
        annual_grid_import := annual_grid_import
        annual_grid_export := annual_grid_export
        annual_electricity_cost := annual_electricity_cost
        annual_feed_in_revenue := annual_feed_in_revenue
        annual_net_cost := annual_electricity_cost - annual_feed_in_revenue
        annual_savings := 0
        daily_energy_throughput := (monthly_results.map (·.throughput)).sum / 365
        monthly_results := monthly_results }

/-- The NPV computed for one candidate capacity inside the loop of
`_optimize_bess_capacity` (lines 203-218): the annual cash flow is
`annual_savings - opex_annual`, where `annual_savings` is read from the
scenario dict. -/
def candidateNpv (pv_production consumption : List ℚ) (bess_params : BESSParameters)
    (electricity_price feed_in_tariff current_capacity : ℚ) : Except PyErr ℚ :=
  match calculate_bess_scenario pv_production consumption current_capacity bess_params
      electricity_price feed_in_tariff with
  | Except.error e => Except.error e
  | Except.ok bess_scenario =>
    let annual_savings := bess_scenario.annual_savings
    let capex := current_capacity * bess_params.capex_per_kwh
    let opex_annual := capex * bess_params.opex_annual_percent / 100
    Except.ok (calculate_npv_simple (annual_savings - opex_annual) capex 0.05 20)

/-- The `while current_capacity <= max_capacity` loop of
`_optimize_bess_capacity` (lines 201-224), generic in the per-candidate
NPV computation, with fuel to model the fact that Python iterates without
bound (`step = 0` never terminates; with a positive-consumption profile
the loop runs 191 iterations, well below the fuel).  `Except.ok none`
marks fuel exhaustion, i.e. divergence; the `Option ℚ` best-NPV
accumulator models the initial `float('-inf')`. -/
def optLoopWith (cand : ℚ → Except PyErr ℚ) (max_capacity step : ℚ) :
    Nat → ℚ → Option ℚ → ℚ → Except PyErr (Option ℚ)
  | 0, _, _, _ => Except.ok none
  | fuel + 1, current_capacity, best_npv, optimal_capacity =>
    if max_capacity < current_capacity then Except.ok (some optimal_capacity)
    else
      match cand current_capacity with
      | Except.error e => Except.error e
      | Except.ok npv =>
        let upd : Bool := match best_npv with
          | none => true
          | some b => decide (b < npv)
        if upd then
          optLoopWith cand max_capacity step fuel (current_capacity + step)
            (some npv) current_capacity
        else
          optLoopWith cand max_capacity step fuel (current_capacity + step)
            best_npv optimal_capacity

/-- `_optimize_bess_capacity` of `bess_calculator.py` (lines 178-226). -/
def optimize_bess_capacity (pv_production : List ℚ)
    (consumption_profile : ConsumptionProfile) (bess_params : BESSParameters)
    (electricity_price feed_in_tariff : ℚ) : Except PyErr (Option ℚ) :=
  let monthly_avg_consumption := consumption_profile.monthly_kwh.sum / 12
  let min_capacity := monthly_avg_consumption * 0.1
  let max_capacity := monthly_avg_consumption * 2
  let step := min_capacity * 0.1
  optLoopWith
    (candidateNpv pv_production consumption_profile.monthly_kwh bess_params
      electricity_price feed_in_tariff)
    max_capacity step 1000 min_capacity none min_capacity

/-- Modelled from the claim C3's reading of the optimizer: identical grid
search, but the 20-year NPV of a candidate uses as annual cash flow the
candidate's "annual net operating benefit (grid-import cost minus export
revenue minus opex)" instead of the `annual_savings` field the code
actually reads.  Used only to compare the claim's description with the
source's `_optimize_bess_capacity`. -/
def claimedCandidateNpv (pv_production consumption : List ℚ)
    (bess_params : BESSParameters) (electricity_price feed_in_tariff
    current_capacity : ℚ) : Except PyErr ℚ :=
  match calculate_bess_scenario pv_production consumption current_capacity bess_params
      electricity_price feed_in_tariff with
  | Except.error e => Except.error e
  | Except.ok bess_scenario =>
    let capex := current_capacity * bess_params.capex_per_kwh
    let opex_annual := capex * bess_params.opex_annual_percent / 100
    Except.ok (calculate_npv_simple
      (bess_scenario.annual_electricity_cost - bess_scenario.annual_feed_in_revenue
        - opex_annual)
      capex 0.05 20)

/-- Modelled from the claim C3's reading of `_optimize_bess_capacity`:
same search range, step, tie-breaking and 20-year NPV shape, with the
claim's annual cash flow. -/
def optimize_bess_capacity_claimed (pv_production : List ℚ)
    (consumption_profile : ConsumptionProfile) (bess_params : BESSParameters)
    (electricity_price feed_in_tariff : ℚ) : Except PyErr (Option ℚ) :=
  let monthly_avg_consumption := consumption_profile.monthly_kwh.sum / 12
  let min_capacity := monthly_avg_consumption * 0.1
  let max_capacity := monthly_avg_consumption * 2
  let step := min_capacity * 0.1
  optLoopWith
    (claimedCandidateNpv pv_production consumption_profile.monthly_kwh bess_params
      electricity_price feed_in_tariff)
    max_capacity step 1000 min_capacity none min_capacity

end BESS

namespace Econ

/-- `EconomicParameters` dataclass of `economic_calculator.py` (lines 10-37). -/
structure EconomicParameters where
  electricity_price_f1 : ℚ := 0.28
  electricity_price_f2 : ℚ := 0.25
  electricity_price_f3 : ℚ := 0.22
  feed_in_tariff : ℚ := 0.05
  pv_capex_per_kwp : ℚ := 1200
  pv_opex_annual_percent : ℚ := 0.015
  bess_capex_per_kwh : ℚ := 500
  bess_opex_annual_percent : ℚ := 0.01
  wacc : ℚ := 0.05
  analysis_years : Nat := 20
  electricity_price_escalation : ℚ := 0.02
  opex_escalation : ℚ := 0.02
  tax_deduction_percent : ℚ := 0
  green_certificates : ℚ := 0

/-- `_calculate_npv` of `economic_calculator.py` (lines 458-463), as a
recursion on the enumerated cash-flow list: `npvFrom r i cfs` adds
`cf / (1+r)^index` for each entry, indices starting at `i`. -/
def npvFrom (discount_rate : ℚ) : Nat → List ℚ → ℚ
  | _, [] => 0
  | i, cf :: rest => cf / (1 + discount_rate) ^ i + npvFrom discount_rate (i + 1) rest

/-- `_calculate_npv` of `economic_calculator.py` (lines 458-463). -/
def calculate_npv (cash_flows : List ℚ) (discount_rate : ℚ) : ℚ :=
  npvFrom discount_rate 0 cash_flows

/-- The `npv_derivative` sum of `_calculate_irr` (line 473):
`Σ_{i>0} -i·cf[i] / (1+rate)^(i+1)`, indices starting at `i`. -/
def irrDerivFrom (rate : ℚ) : Nat → List ℚ → ℚ
  | _, [] => 0
  | i, cf :: rest =>
      (if 0 < i then -(i : ℚ) * cf / (1 + rate) ^ (i + 1) else 0)
        + irrDerivFrom rate (i + 1) rest

/-- How the Newton-Raphson loop of `_calculate_irr` ends: `converged`
models the `return rate` at line 476 (taken when `|npv| < 1e-6`, before
the final range check); `finalCheck` models falling through to line 488
(after the 100 iterations or the `break` on a near-zero derivative). -/
inductive IRRExit where
  | converged (rate : ℚ)
  | finalCheck (rate : ℚ)

/-- The iteration of `_calculate_irr` (lines 471-486): Newton update
`rate - npv/derivative`, clamped into `[-0.99, 10]`. -/
def irrLoop (cash_flows : List ℚ) : Nat → ℚ → IRRExit
  | 0, rate => IRRExit.finalCheck rate
  | n + 1, rate =>
    let npv := npvFrom rate 0 cash_flows
    if |npv| < 1 / 1000000 then IRRExit.converged rate
    else
      let npv_derivative := irrDerivFrom rate 0 cash_flows
      if |npv_derivative| < 1 / 10000000000 then IRRExit.finalCheck rate
      else
        let rate' := rate - npv / npv_derivative
        let rate'' := if rate' < -0.99 then (-0.99 : ℚ)
          else if 10 < rate' then 10 else rate'
        irrLoop cash_flows n rate''

/-- `_calculate_irr` of `economic_calculator.py` (lines 465-491): starts
at rate 0.1, runs at most 100 Newton iterations, and applies the strict
`-1 < rate < 10` range check only on the fall-through paths. -/
def calculate_irr (cash_flows : List ℚ) : ℚ :=
  match irrLoop cash_flows 100 0.1 with
  | IRRExit.converged rate => rate
  | IRRExit.finalCheck rate => if -1 < rate ∧ rate < 10 then rate else 0

/-- The accumulation loop of `_calculate_payback` (lines 495-508):
`year` counts entries, `previous_cumulative` is the cumulative sum before
the current entry. -/
def paybackAux (initial_investment : ℚ) : Nat → ℚ → List ℚ → WithTop ℚ
  | _, _, [] => ⊤
  | year, previous_cumulative, cf :: rest =>
    let cumulative_cf := previous_cumulative + cf
    if initial_investment ≤ cumulative_cf then
      if year = 0 then
        if 0 < cf then ((cf / initial_investment : ℚ) : WithTop ℚ) else ⊤
      else ((((year : ℚ) + (initial_investment - previous_cumulative) / cf : ℚ)) : WithTop ℚ)
    else paybackAux initial_investment (year + 1) cumulative_cf rest

/-- `_calculate_payback` of `economic_calculator.py` (lines 493-508);
`float('inf')` is modelled as `⊤`. -/
def calculate_payback (initial_investment : ℚ) (cash_flows : List ℚ) : WithTop ℚ :=
  paybackAux initial_investment 0 0 cash_flows

/-- The monthly self-consumption list of `_calculate_pv_only_scenario`
(lines 222-230). -/
def monthly_self_consumption (pv_production_monthly consumption_monthly : List ℚ) :
    List ℚ :=
  (List.range 12).map
    (fun i => min (pv_production_monthly.getD i 0) (consumption_monthly.getD i 0))

/-- The monthly grid-export list of `_calculate_pv_only_scenario`
(lines 222-231). -/
def monthly_grid_export (pv_production_monthly consumption_monthly : List ℚ) :
    List ℚ :=
  (List.range 12).map
    (fun i => max 0 (pv_production_monthly.getD i 0 - consumption_monthly.getD i 0))

/-- The monthly grid-import list of `_calculate_pv_only_scenario`
(lines 222-232). -/
def monthly_grid_import (pv_production_monthly consumption_monthly : List ℚ) :
    List ℚ :=
  (List.range 12).map
    (fun i => max 0 (consumption_monthly.getD i 0 - pv_production_monthly.getD i 0))

/-- The blended electricity price used by both scenario builders
(lines 240-244 and 311-315): fixed 0.33/0.33/0.34 weights. -/
def avg_electricity_price (ep : EconomicParameters) : ℚ :=
  ep.electricity_price_f1 * 0.33 + ep.electricity_price_f2 * 0.33
    + ep.electricity_price_f3 * 0.34

/-- The escalated cash-flow series built by both scenario builders
(lines 252-259 and 322-329). -/
def escalatedCashFlows (annual_savings annual_opex : ℚ) (ep : EconomicParameters) :
    List ℚ :=
  (List.range ep.analysis_years).map (fun year =>
    annual_savings * (1 + ep.electricity_price_escalation) ^ year
      - annual_opex * (1 + ep.opex_escalation) ^ year)

/-- The dict returned by the scenario builders (lines 266-277, 336-347). -/
structure ScenarioResult where
  npv : ℚ
  irr : ℚ
  payback : WithTop ℚ
  capex : ℚ
  annual_opex : ℚ
  annual_savings : ℚ
  cash_flows : List ℚ
  annual_self_consumption : ℚ
  annual_grid_export : ℚ
  annual_grid_import : ℚ

/-- `_calculate_pv_only_scenario` of `economic_calculator.py`
(lines 203-277).  (`pv_production_annual` is a parameter the body never
uses.) -/
def calculate_pv_only_scenario (pv_power_kwp _pv_production_annual : ℚ)
    (pv_production_monthly consumption_monthly : List ℚ)
    (economic_params : EconomicParameters) : ScenarioResult :=
  let pv_capex := pv_power_kwp * economic_params.pv_capex_per_kwp
  let pv_opex_annual := pv_capex * economic_params.pv_opex_annual_percent
  let annual_self_consumption :=
    (monthly_self_consumption pv_production_monthly consumption_monthly).sum
  let annual_grid_export :=
    (monthly_grid_export pv_production_monthly consumption_monthly).sum
  let annual_grid_import :=
    (monthly_grid_import pv_production_monthly consumption_monthly).sum
  let annual_savings := annual_self_consumption * avg_electricity_price economic_params
    + annual_grid_export * economic_params.feed_in_tariff
  let cash_flows := escalatedCashFlows annual_savings pv_opex_annual economic_params
  { npv := calculate_npv (-pv_capex :: cash_flows) economic_params.wacc
    irr := calculate_irr (-pv_capex :: cash_flows)
    payback := calculate_payback pv_capex cash_flows
    capex := pv_capex
    annual_opex := pv_opex_annual
    annual_savings := annual_savings
    cash_flows := cash_flows
    annual_self_consumption := annual_self_consumption
    annual_grid_export := annual_grid_export
    annual_grid_import := annual_grid_import }

/-- `_calculate_pv_bess_scenario` of `economic_calculator.py`
(lines 279-347). -/
def calculate_pv_bess_scenario (pv_power_kwp pv_production_annual : ℚ)
    (_pv_production_monthly consumption_monthly : List ℚ)
    (bess_capacity_kwh bess_self_consumption_increase : ℚ)
    (economic_params : EconomicParameters) : ScenarioResult :=
  let pv_capex := pv_power_kwp * economic_params.pv_capex_per_kwp
  let bess_capex := bess_capacity_kwh * economic_params.bess_capex_per_kwh
  let total_capex := pv_capex + bess_capex
  let pv_opex_annual := pv_capex * economic_params.pv_opex_annual_percent
  let bess_opex_annual := bess_capex * economic_params.bess_opex_annual_percent
  let total_opex_annual := pv_opex_annual + bess_opex_annual
  let annual_self_consumption_base := min pv_production_annual consumption_monthly.sum
  let annual_self_consumption_with_bess :=
    annual_self_consumption_base + bess_self_consumption_increase
  let annual_grid_export := max 0 (pv_production_annual - annual_self_consumption_with_bess)
  let annual_grid_import := max 0 (consumption_monthly.sum - annual_self_consumption_with_bess)
  let annual_savings :=
    annual_self_consumption_with_bess * avg_electricity_price economic_params
      + annual_grid_export * economic_params.feed_in_tariff
  let cash_flows := escalatedCashFlows annual_savings total_opex_annual economic_params
  { npv := calculate_npv (-total_capex :: cash_flows) economic_params.wacc
    irr := calculate_irr (-total_capex :: cash_flows)
    payback := calculate_payback total_capex cash_flows
    capex := total_capex
    annual_opex := total_opex_annual
    annual_savings := annual_savings
    cash_flows := cash_flows
    annual_self_consumption := annual_self_consumption_with_bess
    annual_grid_export := annual_grid_export
    annual_grid_import := annual_grid_import }

/-- The dict returned by `_calculate_incremental_bess_economics`
(lines 372-376). -/
structure IncrementalResults where
  npv : ℚ
  irr : ℚ
  payback : WithTop ℚ

/-- `_calculate_incremental_bess_economics` of `economic_calculator.py`
(lines 349-376). -/
def calculate_incremental_bess_economics (pv_only_results pv_bess_results : ScenarioResult)
    (bess_capacity_kwh : ℚ) (economic_params : EconomicParameters) : IncrementalResults :=
  let bess_capex := bess_capacity_kwh * economic_params.bess_capex_per_kwh
  let incremental_cash_flows := (List.range pv_only_results.cash_flows.length).map
    (fun i => pv_bess_results.cash_flows.getD i 0 - pv_only_results.cash_flows.getD i 0)
  { npv := calculate_npv (-bess_capex :: incremental_cash_flows) economic_params.wacc
    irr := calculate_irr (-bess_capex :: incremental_cash_flows)
    payback := calculate_payback bess_capex incremental_cash_flows }

/-- `getattr(params, attr)` for the four attributes varied by the
sensitivity sweep (lines 402-409). -/
def getParam (ep : EconomicParameters) (attr : String) : ℚ :=
  if attr = "electricity_price_f2" then ep.electricity_price_f2
  else if attr = "pv_capex_per_kwp" then ep.pv_capex_per_kwp
  else if attr = "bess_capex_per_kwh" then ep.bess_capex_per_kwh
  else if attr = "wacc" then ep.wacc
  else 0

/-- `setattr(params, attr, v)` for the four attributes varied by the
sensitivity sweep (lines 402-409). -/
def setParam (ep : EconomicParameters) (attr : String) (v : ℚ) : EconomicParameters :=
  if attr = "electricity_price_f2" then { ep with electricity_price_f2 := v }
  else if attr = "pv_capex_per_kwp" then { ep with pv_capex_per_kwp := v }
  else if attr = "bess_capex_per_kwh" then { ep with bess_capex_per_kwh := v }
  else if attr = "wacc" then { ep with wacc := v }
  else ep

/-- The `f"{variation:+d}%"` labels of the sensitivity sweep (line 424). -/
def variationLabel (v : ℤ) : String :=
  (if 0 ≤ v then "+" else "") ++ toString v ++ "%"

/-- The inner loop body of `_calculate_sensitivity_analysis`
(lines 405-427) for one parameter attribute: the five ±20% variations.
The `try/except` at lines 412-427 catches exactly the `ZeroDivisionError`
that `_calculate_npv` raises when `1 + wacc = 0`, and stores `0`; that is
modelled by the explicit guard. -/
def sensitivityFor (pv_power_kwp pv_production_annual bess_capacity_kwh : ℚ)
    (base_params : EconomicParameters) (attr : String) : List (String × ℚ) :=
  ([-20, -10, 0, 10, 20] : List ℤ).map (fun (variation : ℤ) =>
    let modified_params := setParam base_params attr
      (getParam base_params attr * (1 + ((variation : ℤ) : ℚ) / 100))
    let pv_capex := pv_power_kwp * modified_params.pv_capex_per_kwp
    let bess_capex := bess_capacity_kwh * modified_params.bess_capex_per_kwh
    let total_capex := pv_capex + bess_capex
    let annual_savings := pv_production_annual * modified_params.electricity_price_f2 * 0.7
    let annual_opex := total_capex * 0.015
    let cash_flows := List.replicate modified_params.analysis_years
      (annual_savings - annual_opex)
    let npv := if (1 : ℚ) + modified_params.wacc = 0 then 0
      else calculate_npv (-total_capex :: cash_flows) modified_params.wacc
    (variationLabel variation, npv))

/-- `_calculate_sensitivity_analysis` of `economic_calculator.py`
(lines 378-429); the dict is modelled as an association list in the
insertion order of `sensitivity_params`. -/
def calculate_sensitivity_analysis (pv_power_kwp pv_production_annual
    _consumption_annual bess_capacity_kwh : ℚ) (economic_params : EconomicParameters) :
    List (String × List (String × ℚ)) :=
  [("electricity_price",
      sensitivityFor pv_power_kwp pv_production_annual bess_capacity_kwh economic_params
        "electricity_price_f2"),
   ("pv_capex",
      sensitivityFor pv_power_kwp pv_production_annual bess_capacity_kwh economic_params
        "pv_capex_per_kwp"),
   ("bess_capex",
      sensitivityFor pv_power_kwp pv_production_annual bess_capacity_kwh economic_params
        "bess_capex_per_kwh"),
   ("wacc",
      sensitivityFor pv_power_kwp pv_production_annual bess_capacity_kwh economic_params
        "wacc")]

/-- `_calculate_lcoe` of `economic_calculator.py` (lines 431-456). -/
def calculate_lcoe (capex annual_opex annual_production : ℚ)
    (economic_params : EconomicParameters) : ℚ :=
  let cost_cash_flows := capex :: (List.range economic_params.analysis_years).map
    (fun year => annual_opex * (1 + economic_params.opex_escalation) ^ year)
  let discounted_production := ((List.range economic_params.analysis_years).map
    (fun year => annual_production / (1 + economic_params.wacc) ^ (year + 1))).sum
  let discounted_costs := npvFrom economic_params.wacc 0 cost_cash_flows
  if discounted_production > 0 then discounted_costs / discounted_production else 0

/-- Python truthiness of an optional float: `None` and `0.0` are falsy. -/
def truthy : Option ℚ → Bool
  | none => false
  | some x => decide (x ≠ 0)

/-- Python `x or 0` for an optional float (line 155). -/
def orZero : Option ℚ → ℚ
  | none => 0
  | some x => x

/-- `EconomicResults` dataclass of `economic_calculator.py` (lines 39-72). -/
structure EconomicResults where
  pv_only_npv : ℚ
  pv_only_irr : ℚ
  pv_only_payback : WithTop ℚ
  pv_only_capex : ℚ
  pv_only_annual_savings : ℚ
  pv_bess_npv : ℚ
  pv_bess_irr : ℚ
  pv_bess_payback : WithTop ℚ
  pv_bess_capex : ℚ
  pv_bess_annual_savings : ℚ
  bess_incremental_npv : ℚ
  bess_incremental_irr : ℚ
  bess_incremental_payback : WithTop ℚ
  annual_cash_flows_pv : List ℚ
  annual_cash_flows_pv_bess : List ℚ
  sensitivity_analysis : List (String × List (String × ℚ))
  total_investment : ℚ
  total_annual_production : ℚ
  total_annual_savings : ℚ
  lcoe : ℚ

/-- `calculate_complete_economic_analysis` of `economic_calculator.py`
(lines 80-201).  The BESS branch is selected by Python truthiness of the
two optional arguments (line 123); `bess_annual_throughput` is accepted
and never used, exactly as in the source. -/
def calculate_complete_economic_analysis (pv_power_kwp pv_production_annual : ℚ)
    (pv_production_monthly : List ℚ) (consumption_annual : ℚ)
    (consumption_monthly : List ℚ)
    (bess_capacity_kwh _bess_annual_throughput bess_self_consumption_increase : Option ℚ)
    (economic_params : EconomicParameters) : EconomicResults :=
  let pv_only_results := calculate_pv_only_scenario pv_power_kwp pv_production_annual
    pv_production_monthly consumption_monthly economic_params
  let branch :=
    if truthy bess_capacity_kwh && truthy bess_self_consumption_increase then
      let pv_bess_results := calculate_pv_bess_scenario pv_power_kwp pv_production_annual
        pv_production_monthly consumption_monthly (orZero bess_capacity_kwh)
        (orZero bess_self_consumption_increase) economic_params
      (pv_bess_results,
        calculate_incremental_bess_economics pv_only_results pv_bess_results
          (orZero bess_capacity_kwh) economic_params)
    else
      (pv_only_results, ({ npv := 0, irr := 0, payback := ⊤ } : IncrementalResults))
  let pv_bess_results := branch.1
  let incremental_results := branch.2
  let sensitivity_results := calculate_sensitivity_analysis pv_power_kwp
    pv_production_annual consumption_annual (orZero bess_capacity_kwh) economic_params
  let lcoe := calculate_lcoe pv_only_results.capex pv_only_results.annual_opex
    pv_production_annual economic_params
  { pv_only_npv := pv_only_results.npv
    pv_only_irr := pv_only_results.irr
    pv_only_payback := pv_only_results.payback
    pv_only_capex := pv_only_results.capex
    pv_only_annual_savings := pv_only_results.annual_savings
    pv_bess_npv := pv_bess_results.npv
    pv_bess_irr := pv_bess_results.irr
    pv_bess_payback := pv_bess_results.payback
    pv_bess_capex := pv_bess_results.capex
    pv_bess_annual_savings := pv_bess_results.annual_savings
    bess_incremental_npv := incremental_results.npv
    bess_incremental_irr := incremental_results.irr
    bess_incremental_payback := incremental_results.payback
    annual_cash_flows_pv := pv_only_results.cash_flows
    annual_cash_flows_pv_bess := pv_bess_results.cash_flows
    sensitivity_analysis := sensitivity_results
    total_investment := pv_bess_results.capex
    total_annual_production := pv_production_annual
    total_annual_savings := pv_bess_results.annual_savings
    lcoe := lcoe }

end Econ

/-! ## Shared helper lemmas -/

/-- Every call to `calculate_optimal_bess` raises the arity `TypeError`
from its first internal call, regardless of the inputs. -/
theorem calculate_optimal_bess_raises (pv : List ℚ) (cp : BESS.ConsumptionProfile)
    (bp : BESS.BESSParameters) :
    BESS.calculate_optimal_bess pv cp bp = Except.error BESS.baselineArityError := rfl

/-- `min a b + max 0 (a - b) = a` over a linear ordered field. -/
theorem min_add_max_sub (a b : ℚ) : min a b + max 0 (a - b) = a := by
  rcases le_total a b with h | h
  · rw [min_eq_left h, max_eq_left (by linarith : a - b ≤ 0)]; ring
  · rw [min_eq_right h, max_eq_right (by linarith : (0:ℚ) ≤ a - b)]; ring

/-- Reading index `i < 12` out of a 12-month table built by mapping over
`List.range 12`. -/
theorem getD_map_range {f : ℕ → ℚ} {i : ℕ} (hi : i < 12) :
    ((List.range 12).map f).getD i 0 = f i := by
  rw [List.getD_eq_getElem?_getD, List.getElem?_map, List.getElem?_range hi]
  rfl

/-! ## Claims -/

/-- C1: for every input, the public BESS operation `calculate_optimal_bess`
raises (the `TypeError` from calling `_calculate_baseline_scenario` with 2
arguments where 4 positional parameters are required) and never returns a
`BESSResults` value; moreover `_optimize_bess_capacity_technical` and
`_calculate_self_consumption_improvement` are not among the methods
defined on the class. -/
theorem C1_calculate_optimal_bess_always_raises :
    (∀ (pv : List ℚ) (cp : BESS.ConsumptionProfile) (bp : BESS.BESSParameters),
      BESS.calculate_optimal_bess pv cp bp = Except.error BESS.baselineArityError)
    ∧ "_optimize_bess_capacity_technical" ∉ BESS.definedMethods
    ∧ "_calculate_self_consumption_improvement" ∉ BESS.definedMethods :=
  ⟨fun pv cp bp => calculate_optimal_bess_raises pv cp bp, by decide, by decide⟩

/-- C2 counterexample: a wrong-length production vector (5 entries) does
not make `calculate_optimal_bess` raise the specification's
`InvalidInputError`; the raised error is the arity `TypeError` (which any
call raises), so no validation happens before computation. -/
theorem C2_counterexample :
    ([3, 1, 4, 1, 5] : List ℚ).length ≠ 12
    ∧ BESS.calculate_optimal_bess [3, 1, 4, 1, 5]
        { monthly_kwh := List.replicate 12 10 } {} = Except.error BESS.baselineArityError
    ∧ PyErr.isInvalidInput BESS.baselineArityError = false :=
  ⟨by decide, calculate_optimal_bess_raises _ _ _, rfl⟩

/-- C2 (amended): wrong-length or negative inputs indeed never produce a
normal return or a partial result — but not through an `InvalidInputError`
raised before computation (no validation exists in the code): such calls,
like all calls, raise the `TypeError` from the 2-versus-4-argument call to
`_calculate_baseline_scenario`. -/
theorem C2_amended_no_validation (pv : List ℚ) (cp : BESS.ConsumptionProfile)
    (bp : BESS.BESSParameters)
    (_h : pv.length ≠ 12 ∨ cp.monthly_kwh.length ≠ 12
      ∨ (∃ x ∈ pv, x < 0) ∨ (∃ x ∈ cp.monthly_kwh, x < 0)) :
    BESS.calculate_optimal_bess pv cp bp = Except.error BESS.baselineArityError :=
  calculate_optimal_bess_raises pv cp bp

/-- C2 witness: the amended theorem applied to a concrete wrong-length
input. -/
theorem C2_amended_no_validation_witness :
    BESS.calculate_optimal_bess [1, 2] { monthly_kwh := List.replicate 12 10 } {}
      = Except.error BESS.baselineArityError :=
  C2_amended_no_validation [1, 2] { monthly_kwh := List.replicate 12 10 } {}
    (Or.inl (by decide))

/-- C9: the BESS engine's rate and cycle divisions are guarded: zero
annual PV production gives a baseline self-consumption rate of 0, and
zero usable capacity (capacity × DoD = 0) gives 0 daily cycles. -/
theorem C9_guarded_divisions :
    (∀ (pv cons : List ℚ) (price tariff : ℚ), pv.sum = 0 →
      (BESS.calculate_baseline_scenario pv cons price tariff).self_consumption_rate = 0)
    ∧ (∀ (cap thr : ℚ) (bp : BESS.BESSParameters), cap * bp.dod = 0 →
      (BESS.calculate_technical_metrics cap thr bp).daily_cycles = 0) := by
  constructor
  · intro pv cons price tariff h
    simp only [BESS.calculate_baseline_scenario, h]
    norm_num
  · intro cap thr bp h
    simp only [BESS.calculate_technical_metrics, h]
    norm_num

/-- C9 witness: the guards applied at concrete inputs (12 months of zero
production; a battery with zero capacity). -/
theorem C9_guarded_divisions_witness :
    (BESS.calculate_baseline_scenario (List.replicate 12 0) (List.replicate 12 5)
        1 1).self_consumption_rate = 0
    ∧ (BESS.calculate_technical_metrics 0 7 {}).daily_cycles = 0 :=
  ⟨C9_guarded_divisions.1 _ _ _ _ (by simp),
   C9_guarded_divisions.2 0 7 {} (zero_mul _)⟩

/-- C4 (code bug): for initial investment 2 and cash flows `[4]`, the
cumulative sum reaches the investment in year 0, and the code returns
`cf / I = 2.0` — the reciprocal of the interpolated payback `I / cf = 0.5`
that the claim (and the code's own later-year interpolation, illustrated
by the second conjunct: investment 2, flows `[0, 4]`, payback
`1 + (2-0)/4 = 1.5`) prescribes. -/
theorem C4_payback_year0_inverted :
    Econ.calculate_payback 2 [4] = ((2 : ℚ) : WithTop ℚ)
    ∧ Econ.calculate_payback 2 [0, 4] = ((3/2 : ℚ) : WithTop ℚ) := by
  constructor
  · show Econ.paybackAux 2 0 0 [4] = _
    rw [Econ.paybackAux]
    norm_num
  · show Econ.paybackAux 2 0 0 [0, 4] = _
    rw [Econ.paybackAux]
    norm_num [Econ.paybackAux]

/-- C7: in the PV-only scenario builder and in the BESS baseline scenario,
for every month index `i < 12` and non-negative 12-month production and
consumption vectors, self-consumption + grid-export = production and
self-consumption + grid-import = consumption, and the annual totals of
both builders are the sums of the 12 monthly values. -/
theorem C7_energy_conservation (pvm cm : List ℚ)
    (_hlp : pvm.length = 12) (_hlc : cm.length = 12)
    (_hp : ∀ x ∈ pvm, 0 ≤ x) (_hc : ∀ x ∈ cm, 0 ≤ x) :
    (∀ i, i < 12 →
      ((Econ.monthly_self_consumption pvm cm).getD i 0
          + (Econ.monthly_grid_export pvm cm).getD i 0 = pvm.getD i 0
        ∧ (Econ.monthly_self_consumption pvm cm).getD i 0
          + (Econ.monthly_grid_import pvm cm).getD i 0 = cm.getD i 0
        ∧ (BESS.monthly_self_consumption pvm cm).getD i 0
          + (BESS.monthly_grid_export pvm cm).getD i 0 = pvm.getD i 0
        ∧ (BESS.monthly_self_consumption pvm cm).getD i 0
          + (BESS.monthly_grid_import pvm cm).getD i 0 = cm.getD i 0))
    ∧ (∀ (pv_power_kwp pv_production_annual : ℚ) (ep : Econ.EconomicParameters),
        (Econ.calculate_pv_only_scenario pv_power_kwp pv_production_annual pvm cm
            ep).annual_self_consumption = (Econ.monthly_self_consumption pvm cm).sum
        ∧ (Econ.calculate_pv_only_scenario pv_power_kwp pv_production_annual pvm cm
            ep).annual_grid_export = (Econ.monthly_grid_export pvm cm).sum
        ∧ (Econ.calculate_pv_only_scenario pv_power_kwp pv_production_annual pvm cm
            ep).annual_grid_import = (Econ.monthly_grid_import pvm cm).sum)
    ∧ (∀ (price tariff : ℚ),
        (BESS.calculate_baseline_scenario pvm cm price tariff).annual_self_consumption
          = (BESS.monthly_self_consumption pvm cm).sum
        ∧ (BESS.calculate_baseline_scenario pvm cm price tariff).annual_grid_export
          = (BESS.monthly_grid_export pvm cm).sum
        ∧ (BESS.calculate_baseline_scenario pvm cm price tariff).annual_grid_import
          = (BESS.monthly_grid_import pvm cm).sum) := by
  refine ⟨fun i hi => ?_, fun _ _ _ => ⟨rfl, rfl, rfl⟩, fun _ _ => ⟨rfl, rfl, rfl⟩⟩
  simp only [Econ.monthly_self_consumption, Econ.monthly_grid_export,
    Econ.monthly_grid_import, BESS.monthly_self_consumption,
    BESS.monthly_grid_export, BESS.monthly_grid_import, getD_map_range hi]
  refine ⟨min_add_max_sub _ _, ?_, min_add_max_sub _ _, ?_⟩
  · rw [min_comm]; exact min_add_max_sub _ _
  · rw [min_comm]; exact min_add_max_sub _ _

/-- C7 witness: energy conservation at a concrete input (January of a
12-month profile with production 10 and consumption 4 in each month). -/
theorem C7_energy_conservation_witness :
    (Econ.monthly_self_consumption (List.replicate 12 10) (List.replicate 12 4)).getD 0 0
        + (Econ.monthly_grid_export (List.replicate 12 10)
            (List.replicate 12 4)).getD 0 0
      = (List.replicate 12 (10:ℚ)).getD 0 0
    ∧ (BESS.calculate_baseline_scenario (List.replicate 12 10) (List.replicate 12 4)
          1 1).annual_self_consumption
        = (BESS.monthly_self_consumption (List.replicate 12 10)
            (List.replicate 12 4)).sum :=
  ⟨((C7_energy_conservation (List.replicate 12 10) (List.replicate 12 4)
      (by simp) (by simp) (by norm_num) (by norm_num)).1 0 (by norm_num)).1,
   ((C7_energy_conservation (List.replicate 12 10) (List.replicate 12 4)
      (by simp) (by simp) (by norm_num) (by norm_num)).2.2 1 1).1⟩

/-- C6: when `bess_capacity_kwh` or `bess_self_consumption_increase` is
absent (`None`), the analysis falls back to the no-BESS path: incremental
NPV and IRR are 0, incremental payback is the "never" sentinel (+∞), and
every PV+BESS scenario field is a copy of the PV-only field. -/
theorem C6_missing_bess_fallback (pp pa : ℚ) (pvm : List ℚ) (ca : ℚ) (cm : List ℚ)
    (bc bt bi : Option ℚ) (ep : Econ.EconomicParameters)
    (h : bc = none ∨ bi = none) :
    (Econ.calculate_complete_economic_analysis pp pa pvm ca cm bc bt bi
        ep).bess_incremental_npv = 0
    ∧ (Econ.calculate_complete_economic_analysis pp pa pvm ca cm bc bt bi
        ep).bess_incremental_irr = 0
    ∧ (Econ.calculate_complete_economic_analysis pp pa pvm ca cm bc bt bi
        ep).bess_incremental_payback = ⊤
    ∧ (Econ.calculate_complete_economic_analysis pp pa pvm ca cm bc bt bi
        ep).pv_bess_npv
      = (Econ.calculate_complete_economic_analysis pp pa pvm ca cm bc bt bi
        ep).pv_only_npv
    ∧ (Econ.calculate_complete_economic_analysis pp pa pvm ca cm bc bt bi
        ep).pv_bess_irr
      = (Econ.calculate_complete_economic_analysis pp pa pvm ca cm bc bt bi
        ep).pv_only_irr
    ∧ (Econ.calculate_complete_economic_analysis pp pa pvm ca cm bc bt bi
        ep).pv_bess_payback
      = (Econ.calculate_complete_economic_analysis pp pa pvm ca cm bc bt bi
        ep).pv_only_payback
    ∧ (Econ.calculate_complete_economic_analysis pp pa pvm ca cm bc bt bi
        ep).pv_bess_capex
      = (Econ.calculate_complete_economic_analysis pp pa pvm ca cm bc bt bi
        ep).pv_only_capex
    ∧ (Econ.calculate_complete_economic_analysis pp pa pvm ca cm bc bt bi
        ep).pv_bess_annual_savings
      = (Econ.calculate_complete_economic_analysis pp pa pvm ca cm bc bt bi
        ep).pv_only_annual_savings
    ∧ (Econ.calculate_complete_economic_analysis pp pa pvm ca cm bc bt bi
        ep).annual_cash_flows_pv_bess
      = (Econ.calculate_complete_economic_analysis pp pa pvm ca cm bc bt bi
        ep).annual_cash_flows_pv := by
  rcases h with rfl | rfl <;>
    simp [Econ.calculate_complete_economic_analysis, Econ.truthy]

/-- C6 witness: the fallback at a concrete call with both BESS arguments
absent. -/
theorem C6_missing_bess_fallback_witness :
    (Econ.calculate_complete_economic_analysis 100 150000
        (List.replicate 12 12500) 120000 (List.replicate 12 10000) none none none
        {}).bess_incremental_npv = 0
    ∧ (Econ.calculate_complete_economic_analysis 100 150000
        (List.replicate 12 12500) 120000 (List.replicate 12 10000) none none none
        {}).bess_incremental_payback = ⊤ :=
  ⟨(C6_missing_bess_fallback 100 150000 (List.replicate 12 12500) 120000
      (List.replicate 12 10000) none none none {} (Or.inl rfl)).1,
   (C6_missing_bess_fallback 100 150000 (List.replicate 12 12500) 120000
      (List.replicate 12 10000) none none none {} (Or.inl rfl)).2.2.1⟩

/-- C10: the no-BESS fallback is selected by truthiness, not presence:
numeric zeros (`bess_capacity_kwh = 0` or
`bess_self_consumption_increase = 0`, both arguments present) degenerate
the analysis exactly as omitted arguments do. -/
theorem C10_truthiness_fallback (pp pa : ℚ) (pvm : List ℚ) (ca : ℚ) (cm : List ℚ)
    (bc bt bi : Option ℚ) (ep : Econ.EconomicParameters)
    (h : bc = some 0 ∨ bi = some 0) :
    (Econ.calculate_complete_economic_analysis pp pa pvm ca cm bc bt bi
        ep).bess_incremental_npv = 0
    ∧ (Econ.calculate_complete_economic_analysis pp pa pvm ca cm bc bt bi
        ep).bess_incremental_irr = 0
    ∧ (Econ.calculate_complete_economic_analysis pp pa pvm ca cm bc bt bi
        ep).bess_incremental_payback = ⊤
    ∧ (Econ.calculate_complete_economic_analysis pp pa pvm ca cm bc bt bi
        ep).pv_bess_npv
      = (Econ.calculate_complete_economic_analysis pp pa pvm ca cm bc bt bi
        ep).pv_only_npv
    ∧ (Econ.calculate_complete_economic_analysis pp pa pvm ca cm bc bt bi
        ep).pv_bess_payback
      = (Econ.calculate_complete_economic_analysis pp pa pvm ca cm bc bt bi
        ep).pv_only_payback
    ∧ (Econ.calculate_complete_economic_analysis pp pa pvm ca cm bc bt bi
        ep).annual_cash_flows_pv_bess
      = (Econ.calculate_complete_economic_analysis pp pa pvm ca cm bc bt bi
        ep).annual_cash_flows_pv := by
  rcases h with rfl | rfl <;>
    simp [Econ.calculate_complete_economic_analysis, Econ.truthy]

/-- C10 witness: the truthiness fallback at a concrete call with both BESS
arguments present but `bess_capacity_kwh = 0`. -/
theorem C10_truthiness_fallback_witness :
    (Econ.calculate_complete_economic_analysis 100 150000
        (List.replicate 12 12500) 120000 (List.replicate 12 10000)
        (some 0) (some 50000) (some 30000) {}).bess_incremental_npv = 0
    ∧ (Econ.calculate_complete_economic_analysis 100 150000
        (List.replicate 12 12500) 120000 (List.replicate 12 10000)
        (some 0) (some 50000) (some 30000) {}).bess_incremental_payback = ⊤ :=
  ⟨(C10_truthiness_fallback 100 150000 (List.replicate 12 12500) 120000
      (List.replicate 12 10000) (some 0) (some 50000) (some 30000) {}
      (Or.inl rfl)).1,
   (C10_truthiness_fallback 100 150000 (List.replicate 12 12500) 120000
      (List.replicate 12 10000) (some 0) (some 50000) (some 30000) {}
      (Or.inl rfl)).2.2.1⟩

/-- The tail sum of `_calculate_npv` (entries from index `i ≥ 1` on) is
strictly antitone in the discount rate when the entries are positive. -/
theorem npvFrom_strictAnti (l : List ℚ) (hl : l ≠ [])
    (hpos : ∀ x ∈ l, 0 < x) :
    ∀ (i : ℕ), i ≠ 0 → ∀ (r1 r2 : ℚ), -1 < r1 → r1 < r2 →
      Econ.npvFrom r2 i l < Econ.npvFrom r1 i l := by
  induction l with
  | nil => exact absurd rfl hl
  | cons c rest ih =>
    intro i hi r1 r2 hr1 hr12
    have hc : 0 < c := hpos c (List.mem_cons_self c rest)
    have h1 : (0:ℚ) < 1 + r1 := by linarith
    have h2 : (0:ℚ) < 1 + r2 := by linarith
    have hpow : (1 + r1) ^ i < (1 + r2) ^ i :=
      pow_lt_pow_left₀ (by linarith) (le_of_lt h1) hi
    have hterm : c / (1 + r2) ^ i < c / (1 + r1) ^ i :=
      div_lt_div_of_pos_left hc (pow_pos h1 i) hpow
    rcases List.eq_nil_or_concat rest with hrest | _
    · subst hrest
      simpa [Econ.npvFrom] using hterm
    · match rest, hpos with
      | [], _ => simpa [Econ.npvFrom] using hterm
      | d :: rest', hpos =>
        have htail := ih (by simp) (fun x hx => hpos x (List.mem_cons_of_mem c hx))
          (i + 1) (Nat.succ_ne_zero i) r1 r2 hr1 hr12
        rw [Econ.npvFrom, Econ.npvFrom]
        exact add_lt_add hterm htail

/-- C8 counterexample: a single-entry cash-flow list satisfies the
claim's hypothesis vacuously (every entry at index ≥ 1 is positive), yet
`_calculate_npv` on it is constant in the rate (the index-0 entry is not
discounted), so it is not strictly decreasing: the rates 0 < 1 (both
> -1) give equal NPVs. -/
theorem C8_counterexample :
    Econ.calculate_npv [5] 1 = Econ.calculate_npv [5] 0
    ∧ (-1 : ℚ) < 0 ∧ (0 : ℚ) < 1
    ∧ ¬ Econ.calculate_npv [5] 1 < Econ.calculate_npv [5] 0 := by
  have h : Econ.calculate_npv [5] 1 = Econ.calculate_npv [5] 0 := by
    norm_num [Econ.calculate_npv, Econ.npvFrom]
  exact ⟨h, by norm_num, by norm_num, by rw [h]; exact lt_irrefl _⟩

/-- C8 (amended): for a cash-flow list with at least two entries whose
entries at indices ≥ 1 are all positive, `_calculate_npv` is strictly
decreasing in the discount rate on rates > -1.  (A list of length ≤ 1
satisfies the positivity condition vacuously but gives a constant NPV.) -/
theorem C8_npv_strict_antitone (c0 : ℚ) (rest : List ℚ) (hne : rest ≠ [])
    (hpos : ∀ x ∈ rest, 0 < x) (r1 r2 : ℚ) (hr1 : -1 < r1) (hr12 : r1 < r2) :
    Econ.calculate_npv (c0 :: rest) r2 < Econ.calculate_npv (c0 :: rest) r1 := by
  have htail := npvFrom_strictAnti rest hne hpos 1 one_ne_zero r1 r2 hr1 hr12
  simp only [Econ.calculate_npv, Econ.npvFrom, pow_zero, div_one]
  exact add_lt_add_left htail c0

/-- C8 witness: the amended monotonicity applied to the cash flows
`[-1, 1]` at rates 0 < 1. -/
theorem C8_npv_strict_antitone_witness :
    Econ.calculate_npv [-1, 1] 1 < Econ.calculate_npv [-1, 1] 0 :=
  C8_npv_strict_antitone (-1) [1] (by simp)
    (by intro x hx; rw [List.mem_singleton] at hx; rw [hx]; norm_num)
    0 1 (by norm_num) (by norm_num)

/-- Step lemma: the Newton iteration returns `converged` on the
`|npv| < 1e-6` test. -/
theorem irrLoop_converged (cash_flows : List ℚ) (n : Nat) (rate : ℚ)
    (h : |Econ.npvFrom rate 0 cash_flows| < 1 / 1000000) :
    Econ.irrLoop cash_flows (n + 1) rate = Econ.IRRExit.converged rate := by
  rw [Econ.irrLoop]
  simp only [if_pos h]

/-- Step lemma: the Newton iteration `break`s to the final range check on
the `|derivative| < 1e-10` test. -/
theorem irrLoop_flat (cash_flows : List ℚ) (n : Nat) (rate : ℚ)
    (h1 : ¬ |Econ.npvFrom rate 0 cash_flows| < 1 / 1000000)
    (h2 : |Econ.irrDerivFrom rate 0 cash_flows| < 1 / 10000000000) :
    Econ.irrLoop cash_flows (n + 1) rate = Econ.IRRExit.finalCheck rate := by
  rw [Econ.irrLoop]
  simp only [if_neg h1, if_pos h2]

/-- Step lemma: one clamped Newton update of the iteration. -/
theorem irrLoop_step (cash_flows : List ℚ) (n : Nat) (rate : ℚ)
    (h1 : ¬ |Econ.npvFrom rate 0 cash_flows| < 1 / 1000000)
    (h2 : ¬ |Econ.irrDerivFrom rate 0 cash_flows| < 1 / 10000000000) :
    Econ.irrLoop cash_flows (n + 1) rate = Econ.irrLoop cash_flows n
      (if rate - Econ.npvFrom rate 0 cash_flows / Econ.irrDerivFrom rate 0 cash_flows
            < -0.99 then (-0.99 : ℚ)
        else if 10 < rate - Econ.npvFrom rate 0 cash_flows
            / Econ.irrDerivFrom rate 0 cash_flows then 10
        else rate - Econ.npvFrom rate 0 cash_flows / Econ.irrDerivFrom rate 0 cash_flows) := by
  rw [Econ.irrLoop]
  simp only [if_neg h1, if_neg h2]

/-- The rate carried by the Newton iteration stays in `[-0.99, 10]`. -/
theorem irrLoop_rate_mem (cash_flows : List ℚ) :
    ∀ (n : Nat) (rate : ℚ), -0.99 ≤ rate → rate ≤ 10 →
      (∀ r, Econ.irrLoop cash_flows n rate = Econ.IRRExit.converged r →
        -0.99 ≤ r ∧ r ≤ 10)
      ∧ (∀ r, Econ.irrLoop cash_flows n rate = Econ.IRRExit.finalCheck r →
        -0.99 ≤ r ∧ r ≤ 10) := by
  intro n
  induction n with
  | zero =>
    intro rate h1 h2
    constructor
    · intro r hr
      rw [Econ.irrLoop] at hr
      cases hr
    · intro r hr
      rw [Econ.irrLoop] at hr
      cases hr with
      | refl => exact ⟨h1, h2⟩
  | succ n ih =>
    intro rate h1 h2
    by_cases hc : |Econ.npvFrom rate 0 cash_flows| < 1 / 1000000
    · rw [irrLoop_converged _ _ _ hc]
      constructor
      · intro r hr
        cases hr with
        | refl => exact ⟨h1, h2⟩
      · intro r hr
        cases hr
    · by_cases hd : |Econ.irrDerivFrom rate 0 cash_flows| < 1 / 10000000000
      · rw [irrLoop_flat _ _ _ hc hd]
        constructor
        · intro r hr
          cases hr
        · intro r hr
          cases hr with
          | refl => exact ⟨h1, h2⟩
      · rw [irrLoop_step _ _ _ hc hd]
        set rate' := rate - Econ.npvFrom rate 0 cash_flows
          / Econ.irrDerivFrom rate 0 cash_flows with hrate'
        by_cases ha : rate' < -0.99
        · rw [if_pos ha]
          exact ih (-0.99) (le_refl _) (by norm_num)
        · rw [if_neg ha]
          by_cases hb : (10:ℚ) < rate'
          · rw [if_pos hb]
            exact ih 10 (by norm_num) (le_refl _)
          · rw [if_neg hb]
            exact ih rate' (le_of_not_lt ha) (le_of_not_lt hb)

/-- Unfolding lemma for `calculate_irr` (the automatically generated
unfolding is too eager for `simp`). -/
theorem calculate_irr_def (cf : List ℚ) :
    Econ.calculate_irr cf = match Econ.irrLoop cf 100 0.1 with
      | Econ.IRRExit.converged rate => rate
      | Econ.IRRExit.finalCheck rate => if -1 < rate ∧ rate < 10 then rate else 0 := rfl

/-- C5 counterexample: two concrete cash-flow lists falsify the claim.
The all-positive single-entry list `[5]` makes the NPV-derivative vanish,
so the iteration stops at the initial rate and returns `0.1`, not the
claimed `0`.  The second list is crafted so that the first Newton step
jumps above 10 (the rate is clamped to exactly 10) and the iteration then
converges (`npv(10) = 0`): the converged return skips the final strict
`(-1, 10)` range check and the function returns `10`, although `10` does
not lie strictly inside `(-1, 10)` (the claim says such a rate yields 0). -/
theorem C5_counterexample :
    Econ.calculate_irr [5] = 1 / 10
    ∧ Econ.calculate_irr [229900121 / 1100000, -242000121 / 100000, 1331] = 10
    ∧ ¬ ((10:ℚ) < 10) := by
  refine ⟨?_, ?_, by norm_num⟩
  · have h1 : Econ.irrLoop [5] 100 0.1 = Econ.IRRExit.finalCheck 0.1 := by
      show Econ.irrLoop [5] (99 + 1) 0.1 = _
      apply irrLoop_flat
      · norm_num [Econ.npvFrom, abs_lt]
      · norm_num [Econ.irrDerivFrom]
    rw [calculate_irr_def, h1]
    norm_num
  · have h1 : Econ.irrLoop [229900121 / 1100000, -242000121 / 100000, 1331] 100
        0.1 = Econ.irrLoop [229900121 / 1100000, -242000121 / 100000, 1331] 99 10 := by
      show Econ.irrLoop _ (99 + 1) 0.1 = _
      rw [irrLoop_step]
      · norm_num [Econ.npvFrom, Econ.irrDerivFrom]
      · norm_num [Econ.npvFrom, abs_lt]
      · norm_num [Econ.irrDerivFrom, abs_lt]
    have h2 : Econ.irrLoop [229900121 / 1100000, -242000121 / 100000, 1331] 99
        10 = Econ.IRRExit.converged 10 := by
      show Econ.irrLoop _ (98 + 1) 10 = _
      apply irrLoop_converged
      norm_num [Econ.npvFrom, abs_lt]
    rw [calculate_irr_def, h1, h2]

/-- C5 (amended): `_calculate_irr` never raises and its result always
lies in `[-0.99, 10]`; the algorithm is as the claim describes except
that (a) the `|npv| < 1e-6` convergence return bypasses the final strict
`(-1, 10)` range check, so a rate clamped to exactly 10 can be returned,
and (b) an all-positive or all-negative series need not return 0: when
the NPV-derivative magnitude falls below 1e-10 (e.g. for the single-entry
list `[5]`), the current rate (0.1 initially) passes the range check and
is returned. -/
theorem C5_irr_total_and_bounded (cash_flows : List ℚ) :
    -0.99 ≤ Econ.calculate_irr cash_flows ∧ Econ.calculate_irr cash_flows ≤ 10 := by
  have h := irrLoop_rate_mem cash_flows 100 0.1 (by norm_num) (by norm_num)
  rw [calculate_irr_def]
  cases he : Econ.irrLoop cash_flows 100 0.1 with
  | converged r => exact h.1 r he
  | finalCheck r =>
    show -0.99 ≤ (if -1 < r ∧ r < 10 then r else 0)
      ∧ (if -1 < r ∧ r < 10 then r else 0) ≤ 10
    by_cases hr : -1 < r ∧ r < 10
    · rw [if_pos hr]
      exact h.2 r he
    · rw [if_neg hr]
      norm_num

/-- The year-sum of `_calculate_npv_simple` is linear in the cash flow. -/
theorem npvYearsSum_mul (c a r : ℚ) :
    ∀ n, BESS.npvYearsSum (c * a) r n = c * BESS.npvYearsSum a r n := by
  intro n
  induction n with
  | zero => simp [BESS.npvYearsSum]
  | succ n ih =>
    rw [BESS.npvYearsSum, BESS.npvYearsSum, ih, mul_add, mul_div_assoc]

/-- The year-sum of `_calculate_npv_simple` is nonpositive for a
nonpositive cash flow (at any rate > -1). -/
theorem npvYearsSum_nonpos (a r : ℚ) (ha : a ≤ 0) (hr : 0 < 1 + r) :
    ∀ n, BESS.npvYearsSum a r n ≤ 0 := by
  intro n
  induction n with
  | zero => simp [BESS.npvYearsSum]
  | succ n ih =>
    rw [BESS.npvYearsSum]
    have hterm : a / (1 + r) ^ (n + 1) ≤ 0 :=
      div_nonpos_of_nonpos_of_nonneg ha (le_of_lt (pow_pos hr (n + 1)))
    linarith

/-- The NPV `_optimize_bess_capacity` computes for a candidate capacity
`c` (with the hard-coded zero `annual_savings`) equals `c` times a
capacity-independent factor. -/
theorem candidate_value_linear (K p c : ℚ) :
    BESS.calculate_npv_simple (0 - c * K * p / 100) (c * K) 0.05 20
      = c * (BESS.npvYearsSum (-(K * p / 100)) 0.05 20 - K) := by
  rw [BESS.calculate_npv_simple]
  have h : (0 - c * K * p / 100) = c * (-(K * p / 100)) := by ring
  rw [h, npvYearsSum_mul]
  ring

/-- The capacity-independent factor is nonpositive when capex and opex
rates are nonnegative. -/
theorem candidate_factor_nonpos (K p : ℚ) (hK : 0 ≤ K) (hp : 0 ≤ p) :
    BESS.npvYearsSum (-(K * p / 100)) 0.05 20 - K ≤ 0 := by
  have h := npvYearsSum_nonpos (-(K * p / 100)) 0.05
    (neg_nonpos.2 (by positivity)) (by norm_num) 20
  linarith

/-- Once `battery_discharge` has been assigned, a month step never
raises. -/
theorem monthStep_some (pv cons : List ℚ) (u e x : ℚ) (i : Nat) :
    ∃ m y, BESS.monthStep pv cons u e (some x) i = Except.ok (m, some y) := by
  rw [BESS.monthStep]
  by_cases h : cons.getD i 0 / BESS.days_in_month.getD i 0
      < pv.getD i 0 / BESS.days_in_month.getD i 0
  · rw [if_pos h]
    exact ⟨_, x, rfl⟩
  · rw [if_neg h]
    exact ⟨_, _, rfl⟩

/-- With `battery_discharge` assigned, the whole month loop succeeds. -/
theorem dispatchMonths_some (pv cons : List ℚ) (u e : ℚ) :
    ∀ (l : List Nat) (x : ℚ),
      ∃ ms, BESS.dispatchMonths pv cons u e l (some x) = Except.ok ms := by
  intro l
  induction l with
  | nil => exact fun x => ⟨[], rfl⟩
  | cons i rest ih =>
    intro x
    obtain ⟨m, y, hm⟩ := monthStep_some pv cons u e x i
    obtain ⟨ms, hms⟩ := ih y
    refine ⟨m :: ms, ?_⟩
    rw [BESS.dispatchMonths, hm]
    show (BESS.dispatchMonths pv cons u e rest (some y)).map (fun ms => m :: ms)
      = Except.ok (m :: ms)
    rw [hms]
    rfl

/-- A month whose daily production does not exceed daily consumption
takes the deficit branch and succeeds whatever the carried state is. -/
theorem monthStep_deficit (pv cons : List ℚ) (u e : ℚ) (st : Option ℚ) (i : Nat)
    (h : ¬ (cons.getD i 0 / BESS.days_in_month.getD i 0
      < pv.getD i 0 / BESS.days_in_month.getD i 0)) :
    ∃ m y, BESS.monthStep pv cons u e st i = Except.ok (m, some y) := by
  rw [BESS.monthStep, if_neg h]
  exact ⟨_, _, rfl⟩

/-- If January is a deficit month (daily production does not exceed daily
consumption), the month loop of `_calculate_bess_scenario` succeeds: the
first iteration assigns `battery_discharge`. -/
theorem dispatchMonths_range12_ok (pv cons : List ℚ) (u e : ℚ)
    (hdef : pv.getD 0 0 ≤ cons.getD 0 0) :
    ∃ ms, BESS.dispatchMonths pv cons u e (List.range 12) none = Except.ok ms := by
  have hrange : List.range 12 = 0 :: [1, 2, 3, 4, 5, 6, 7, 8, 9, 10, 11] := rfl
  have hnot : ¬ (cons.getD 0 0 / BESS.days_in_month.getD 0 0
      < pv.getD 0 0 / BESS.days_in_month.getD 0 0) := by
    have h31 : BESS.days_in_month.getD 0 0 = 31 := rfl
    rw [h31]
    exact not_lt.2 ((div_le_div_iff_of_pos_right (by norm_num)).2 hdef)
  obtain ⟨m0, y0, hm0⟩ := monthStep_deficit pv cons u e none 0 hnot
  obtain ⟨ms, hms⟩ := dispatchMonths_some pv cons u e
    [1, 2, 3, 4, 5, 6, 7, 8, 9, 10, 11] y0
  refine ⟨m0 :: ms, ?_⟩
  rw [hrange, BESS.dispatchMonths, hm0]
  show (BESS.dispatchMonths pv cons u e [1, 2, 3, 4, 5, 6, 7, 8, 9, 10, 11]
    (some y0)).map (fun ms => m0 :: ms) = Except.ok (m0 :: ms)
  rw [hms]
  rfl

/-- Whatever scenario `_calculate_bess_scenario` returns carries the
hard-coded `annual_savings = 0` of its line 305. -/
theorem calculate_bess_scenario_savings_zero (pv cons : List ℚ) (c : ℚ)
    (bp : BESS.BESSParameters) (price tariff : ℚ) (sc : BESS.BessScenario)
    (h : BESS.calculate_bess_scenario pv cons c bp price tariff = Except.ok sc) :
    sc.annual_savings = 0 := by
  rw [BESS.calculate_bess_scenario] at h
  cases hd : BESS.dispatchMonths pv cons (c * bp.dod) bp.efficiency
      (List.range 12) none with
  | error e => rw [hd] at h; cases h
  | ok ms =>
    rw [hd] at h
    cases h
    rfl

/-- If January is a deficit month, `_calculate_bess_scenario` succeeds. -/
theorem calculate_bess_scenario_ok (pv cons : List ℚ) (c : ℚ)
    (bp : BESS.BESSParameters) (price tariff : ℚ)
    (hdef : pv.getD 0 0 ≤ cons.getD 0 0) :
    ∃ sc, BESS.calculate_bess_scenario pv cons c bp price tariff = Except.ok sc := by
  obtain ⟨ms, hms⟩ := dispatchMonths_range12_ok pv cons (c * bp.dod) bp.efficiency hdef
  rw [BESS.calculate_bess_scenario, hms]
  exact ⟨_, rfl⟩

/-- If January is a deficit month, the candidate NPV of
`_optimize_bess_capacity` is defined and — because `annual_savings` is
hard-coded to 0 — equals the NPV of paying only capex and opex. -/
theorem candidateNpv_ok (pv cons : List ℚ) (bp : BESS.BESSParameters)
    (price tariff c : ℚ) (hdef : pv.getD 0 0 ≤ cons.getD 0 0) :
    BESS.candidateNpv pv cons bp price tariff c = Except.ok
      (BESS.calculate_npv_simple (0 - c * bp.capex_per_kwh * bp.opex_annual_percent / 100)
        (c * bp.capex_per_kwh) 0.05 20) := by
  obtain ⟨sc, hsc⟩ := calculate_bess_scenario_ok pv cons c bp price tariff hdef
  have hz := calculate_bess_scenario_savings_zero pv cons c bp price tariff sc hsc
  rw [BESS.candidateNpv, hsc]
  show Except.ok (BESS.calculate_npv_simple
    (sc.annual_savings - c * bp.capex_per_kwh * bp.opex_annual_percent / 100)
    (c * bp.capex_per_kwh) 0.05 20) = _
  rw [hz]

/-- Loop-exit step of the search loop. -/
theorem optLoopWith_exit (cand : ℚ → Except PyErr ℚ) (maxCap step : ℚ) (n : Nat)
    (current optCap : ℚ) (best : Option ℚ) (h : maxCap < current) :
    BESS.optLoopWith cand maxCap step (n + 1) current best optCap
      = Except.ok (some optCap) := by
  rw [BESS.optLoopWith, if_pos h]

/-- First search-loop iteration: the best NPV is still `-inf`, so the
first candidate always becomes the incumbent. -/
theorem optLoopWith_step_none (cand : ℚ → Except PyErr ℚ) (maxCap step : ℚ) (n : Nat)
    (current optCap v : ℚ) (h : ¬ maxCap < current) (hc : cand current = Except.ok v) :
    BESS.optLoopWith cand maxCap step (n + 1) current none optCap
      = BESS.optLoopWith cand maxCap step n (current + step) (some v) current := by
  rw [BESS.optLoopWith, if_neg h, hc]
  rfl

/-- Search-loop iteration that does not improve on the incumbent. -/
theorem optLoopWith_step_ge (cand : ℚ → Except PyErr ℚ) (maxCap step : ℚ) (n : Nat)
    (current optCap b v : ℚ) (h : ¬ maxCap < current) (hc : cand current = Except.ok v)
    (hbv : ¬ b < v) :
    BESS.optLoopWith cand maxCap step (n + 1) current (some b) optCap
      = BESS.optLoopWith cand maxCap step n (current + step) (some b) optCap := by
  rw [BESS.optLoopWith, if_neg h, hc]
  show (if decide (b < v) = true then
      BESS.optLoopWith cand maxCap step n (current + step) (some v) current
    else BESS.optLoopWith cand maxCap step n (current + step) (some b) optCap) = _
  rw [decide_eq_false hbv]
  rfl

/-- Search-loop iteration that improves on the incumbent. -/
theorem optLoopWith_step_lt (cand : ℚ → Except PyErr ℚ) (maxCap step : ℚ) (n : Nat)
    (current optCap b v : ℚ) (h : ¬ maxCap < current) (hc : cand current = Except.ok v)
    (hbv : b < v) :
    BESS.optLoopWith cand maxCap step (n + 1) current (some b) optCap
      = BESS.optLoopWith cand maxCap step n (current + step) (some v) current := by
  rw [BESS.optLoopWith, if_neg h, hc]
  show (if decide (b < v) = true then
      BESS.optLoopWith cand maxCap step n (current + step) (some v) current
    else BESS.optLoopWith cand maxCap step n (current + step) (some b) optCap) = _
  rw [decide_eq_true hbv]
  rfl

/-- If no remaining candidate beats the incumbent NPV, the search keeps
the incumbent capacity and terminates within the fuel bound. -/
theorem optLoopWith_no_update (cand : ℚ → Except PyErr ℚ) (f : ℚ → ℚ)
    (hok : ∀ c, cand c = Except.ok (f c)) (maxCap step : ℚ) (hstep : 0 ≤ step) :
    ∀ (n : Nat) (current b optCap : ℚ),
      (∀ x, current ≤ x → f x ≤ b) → maxCap < current + n * step →
      BESS.optLoopWith cand maxCap step (n + 1) current (some b) optCap
        = Except.ok (some optCap) := by
  intro n
  induction n with
  | zero =>
    intro current b optCap _hb hterm
    rw [Nat.cast_zero, zero_mul, add_zero] at hterm
    exact optLoopWith_exit cand maxCap step 0 current optCap (some b) hterm
  | succ n ih =>
    intro current b optCap hb hterm
    by_cases hlt : maxCap < current
    · exact optLoopWith_exit cand maxCap step (n + 1) current optCap (some b) hlt
    · rw [optLoopWith_step_ge cand maxCap step (n + 1) current optCap b (f current) hlt
        (hok current) (not_lt.2 (hb current (le_refl current)))]
      apply ih
      · intro x hx
        exact hb x (by linarith)
      · have : ((n : ℚ) + 1) * step = step + (n : ℚ) * step := by ring
        rw [Nat.cast_succ, this] at hterm
        linarith

/-- Any capacity the search loop returns carries an NPV at least as good
as the incumbent it started from. -/
theorem optLoopWith_ge (cand : ℚ → Except PyErr ℚ) (maxCap step : ℚ) :
    ∀ (n : Nat) (current b c r : ℚ), cand c = Except.ok b →
      BESS.optLoopWith cand maxCap step n current (some b) c = Except.ok (some r) →
      ∃ br, cand r = Except.ok br ∧ b ≤ br := by
  intro n
  induction n with
  | zero =>
    intro current b c r _hc hr
    rw [BESS.optLoopWith] at hr
    simp at hr
  | succ n ih =>
    intro current b c r hc hr
    by_cases hlt : maxCap < current
    · rw [optLoopWith_exit cand maxCap step n current c (some b) hlt] at hr
      cases hr
      exact ⟨b, hc, le_refl b⟩
    · cases hcand : cand current with
      | error e =>
        rw [BESS.optLoopWith, if_neg hlt, hcand] at hr
        have hr' : (Except.error e : Except PyErr (Option ℚ))
            = Except.ok (some r) := hr
        cases hr'
      | ok v =>
        by_cases hbv : b < v
        · rw [optLoopWith_step_lt cand maxCap step n current c b v hlt hcand hbv] at hr
          obtain ⟨br, hbr, hvbr⟩ := ih (current + step) v current r hcand hr
          exact ⟨br, hbr, le_of_lt (lt_of_lt_of_le hbv hvbr)⟩
        · rw [optLoopWith_step_ge cand maxCap step n current c b v hlt hcand hbv] at hr
          exact ih (current + step) b c r hc hr

/-- Because `annual_savings` is hard-coded to 0, the candidate NPV is
`-capex - discounted opex`, which never increases with capacity; the
ascending search with strict improvement therefore keeps its very first
candidate: `_optimize_bess_capacity` returns the minimum capacity, 10% of
the average monthly consumption. -/
theorem optimize_bess_capacity_eq_min (pv : List ℚ) (cp : BESS.ConsumptionProfile)
    (bp : BESS.BESSParameters) (price tariff : ℚ)
    (hsum : 0 < cp.monthly_kwh.sum)
    (hK : 0 ≤ bp.capex_per_kwh) (hp : 0 ≤ bp.opex_annual_percent)
    (hdef : pv.getD 0 0 ≤ cp.monthly_kwh.getD 0 0) :
    BESS.optimize_bess_capacity pv cp bp price tariff
      = Except.ok (some (cp.monthly_kwh.sum / 12 * 0.1)) := by
  have havg : (0:ℚ) < cp.monthly_kwh.sum / 12 := by positivity
  set avg := cp.monthly_kwh.sum / 12 with havg_def
  set minCap := avg * 0.1 with hmin_def
  set maxCap := avg * 2 with hmax_def
  set step := minCap * 0.1 with hstep_def
  have hminpos : 0 < minCap := by rw [hmin_def]; positivity
  have hsteppos : 0 < step := by rw [hstep_def]; positivity
  set f : ℚ → ℚ := fun c => BESS.calculate_npv_simple
    (0 - c * bp.capex_per_kwh * bp.opex_annual_percent / 100)
    (c * bp.capex_per_kwh) 0.05 20 with hf_def
  have hok : ∀ c, BESS.candidateNpv pv cp.monthly_kwh bp price tariff c
      = Except.ok (f c) :=
    fun c => candidateNpv_ok pv cp.monthly_kwh bp price tariff c hdef
  have hanti : ∀ x y : ℚ, x ≤ y → f y ≤ f x := by
    intro x y hxy
    rw [hf_def]
    dsimp only
    rw [candidate_value_linear, candidate_value_linear]
    exact mul_le_mul_of_nonpos_right hxy
      (candidate_factor_nonpos bp.capex_per_kwh bp.opex_annual_percent hK hp)
  show BESS.optLoopWith (BESS.candidateNpv pv cp.monthly_kwh bp price tariff)
    maxCap step 1000 minCap none minCap = Except.ok (some minCap)
  have h1 : BESS.optLoopWith (BESS.candidateNpv pv cp.monthly_kwh bp price tariff)
      maxCap step (999 + 1) minCap none minCap
      = BESS.optLoopWith (BESS.candidateNpv pv cp.monthly_kwh bp price tariff)
        maxCap step 999 (minCap + step) (some (f minCap)) minCap := by
    apply optLoopWith_step_none
    · rw [hmax_def, hmin_def]
      intro hcon
      nlinarith
    · exact hok minCap
  show BESS.optLoopWith (BESS.candidateNpv pv cp.monthly_kwh bp price tariff)
    maxCap step (999 + 1) minCap none minCap = Except.ok (some minCap)
  rw [h1]
  apply optLoopWith_no_update (BESS.candidateNpv pv cp.monthly_kwh bp price tariff) f
    hok maxCap step (le_of_lt hsteppos) 998 (minCap + step) (f minCap) minCap
  · intro x hx
    exact hanti minCap x (by linarith)
  · rw [hmax_def, hmin_def, hstep_def]
    push_cast
    nlinarith

/-- C3 (amended): each candidate's 20-year NPV in
`_optimize_bess_capacity` uses annual cash flow
`annual_savings - opex` where `annual_savings` is the literal 0 that
`_calculate_bess_scenario` returns (its line 305) — not the candidate's
net operating benefit.  The NPV is therefore `-capex` minus discounted
opex, non-increasing in capacity, and the ascending search (ties and
non-improvements keep the incumbent) always returns the minimum
capacity, 10% of average monthly consumption — whenever the run is
defined: positive total consumption (otherwise the `while` loop has step
0 and never terminates), January in deficit (otherwise
`battery_discharge` is read unassigned), positive efficiency and
12-month vectors (Python totality), and nonnegative capex/opex rates. -/
theorem C3_optimizer_ignores_savings :
    (∀ (pv cons : List ℚ) (c : ℚ) (bp : BESS.BESSParameters) (price tariff : ℚ)
        (sc : BESS.BessScenario),
      BESS.calculate_bess_scenario pv cons c bp price tariff = Except.ok sc →
      sc.annual_savings = 0)
    ∧ ∀ (pv : List ℚ) (cp : BESS.ConsumptionProfile) (bp : BESS.BESSParameters)
        (price tariff : ℚ),
      pv.length = 12 → cp.monthly_kwh.length = 12 → 0 < bp.efficiency →
      0 < cp.monthly_kwh.sum → 0 ≤ bp.capex_per_kwh → 0 ≤ bp.opex_annual_percent →
      pv.getD 0 0 ≤ cp.monthly_kwh.getD 0 0 →
      BESS.optimize_bess_capacity pv cp bp price tariff
        = Except.ok (some (cp.monthly_kwh.sum / 12 * 0.1)) :=
  ⟨calculate_bess_scenario_savings_zero,
   fun pv cp bp price tariff _ _ _ hsum hK hp hdef =>
     optimize_bess_capacity_eq_min pv cp bp price tariff hsum hK hp hdef⟩

/-- C3 witness: the optimizer applied to a concrete profile (average
monthly consumption 120 kWh) returns the minimum capacity 12 kWh. -/
theorem C3_optimizer_ignores_savings_witness :
    BESS.optimize_bess_capacity
        [0, 1000, 1000, 1000, 1000, 1000, 1000, 1000, 1000, 1000, 1000, 1000]
        { monthly_kwh := [120, 120, 120, 120, 120, 120, 120, 120, 120, 120, 120, 120] }
        { dod := 1, c_rate := 1, efficiency := 1, cycle_life := 6000,
          capex_per_kwh := 500, opex_annual_percent := 1, degradation_annual := 0 }
        0 1
      = Except.ok (some 12) := by
  have h := C3_optimizer_ignores_savings.2
    [0, 1000, 1000, 1000, 1000, 1000, 1000, 1000, 1000, 1000, 1000, 1000]
    { monthly_kwh := [120, 120, 120, 120, 120, 120, 120, 120, 120, 120, 120, 120] }
    { dod := 1, c_rate := 1, efficiency := 1, cycle_life := 6000,
      capex_per_kwh := 500, opex_annual_percent := 1, degradation_annual := 0 }
    0 1 rfl rfl (by norm_num) (by norm_num [List.sum_cons, List.sum_nil])
    (by norm_num) (by norm_num) (by norm_num [List.getD_cons_zero])
  rw [h]
  norm_num [List.sum_cons, List.sum_nil]

/-- C3 counterexample: at a concrete input (January in deficit, all other
months in surplus, feed-in tariff 1, electricity price 0), the source's
optimizer returns the minimum capacity 12 kWh, while the optimizer the
claim describes (annual cash flow = import cost − export revenue − opex)
does not: its NPV is strictly better at the second candidate 13.2 kWh,
so the claim's description of the computed NPV is false of the code. -/
theorem C3_counterexample :
    BESS.optimize_bess_capacity
        [0, 1000, 1000, 1000, 1000, 1000, 1000, 1000, 1000, 1000, 1000, 1000]
        { monthly_kwh := [120, 120, 120, 120, 120, 120, 120, 120, 120, 120, 120, 120] }
        { dod := 1, c_rate := 1, efficiency := 1, cycle_life := 6000,
          capex_per_kwh := 500, opex_annual_percent := 1, degradation_annual := 0 }
        0 1
      = Except.ok (some 12)
    ∧ BESS.optimize_bess_capacity_claimed
        [0, 1000, 1000, 1000, 1000, 1000, 1000, 1000, 1000, 1000, 1000, 1000]
        { monthly_kwh := [120, 120, 120, 120, 120, 120, 120, 120, 120, 120, 120, 120] }
        { dod := 1, c_rate := 1, efficiency := 1, cycle_life := 6000,
          capex_per_kwh := 500, opex_annual_percent := 1, degradation_annual := 0 }
        0 1
      ≠ Except.ok (some 12) := by
  constructor
  · have h := optimize_bess_capacity_eq_min
      [0, 1000, 1000, 1000, 1000, 1000, 1000, 1000, 1000, 1000, 1000, 1000]
      { monthly_kwh := [120, 120, 120, 120, 120, 120, 120, 120, 120, 120, 120, 120] }
      { dod := 1, c_rate := 1, efficiency := 1, cycle_life := 6000,
        capex_per_kwh := 500, opex_annual_percent := 1, degradation_annual := 0 }
      0 1 (by norm_num [List.sum_cons, List.sum_nil]) (by norm_num) (by norm_num)
      (by norm_num [List.getD_cons_zero])
    rw [h]
    norm_num [List.sum_cons, List.sum_nil]
  · intro hcontra
    have hv12 : BESS.claimedCandidateNpv
        [0, 1000, 1000, 1000, 1000, 1000, 1000, 1000, 1000, 1000, 1000, 1000]
        [120, 120, 120, 120, 120, 120, 120, 120, 120, 120, 120, 120]
        { dod := 1, c_rate := 1, efficiency := 1, cycle_life := 6000,
          capex_per_kwh := 500, opex_annual_percent := 1, degradation_annual := 0 }
        0 1 12
        = Except.ok
          (-21543396064480234827591373816640 / 278218429446951548637196401) := by
      norm_num [BESS.claimedCandidateNpv, BESS.calculate_bess_scenario,
        show List.range 12 = [0, 1, 2, 3, 4, 5, 6, 7, 8, 9, 10, 11] from rfl,
        BESS.dispatchMonths, BESS.monthStep, BESS.days_in_month,
        BESS.calculate_npv_simple, BESS.npvYearsSum,
        List.getD_cons_zero, List.getD_cons_succ, min_def, max_def, Except.map]
    have hv13 : BESS.claimedCandidateNpv
        [0, 1000, 1000, 1000, 1000, 1000, 1000, 1000, 1000, 1000, 1000, 1000]
        [120, 120, 120, 120, 120, 120, 120, 120, 120, 120, 120, 120]
        { dod := 1, c_rate := 1, efficiency := 1, cycle_life := 6000,
          capex_per_kwh := 500, opex_annual_percent := 1, degradation_annual := 0 }
        0 1 (12 + 6 / 5)
        = Except.ok
          (-20341470012835276328734388874944 / 278218429446951548637196401) := by
      norm_num [BESS.claimedCandidateNpv, BESS.calculate_bess_scenario,
        show List.range 12 = [0, 1, 2, 3, 4, 5, 6, 7, 8, 9, 10, 11] from rfl,
        BESS.dispatchMonths, BESS.monthStep, BESS.days_in_month,
        BESS.calculate_npv_simple, BESS.npvYearsSum,
        List.getD_cons_zero, List.getD_cons_succ, min_def, max_def, Except.map]
    simp only [BESS.optimize_bess_capacity_claimed] at hcontra
    norm_num [List.sum_cons, List.sum_nil] at hcontra
    rw [show (1000 : Nat) = 999 + 1 from rfl] at hcontra
    rw [optLoopWith_step_none
      (BESS.claimedCandidateNpv
        [0, 1000, 1000, 1000, 1000, 1000, 1000, 1000, 1000, 1000, 1000, 1000]
        [120, 120, 120, 120, 120, 120, 120, 120, 120, 120, 120, 120]
        { dod := 1, c_rate := 1, efficiency := 1, cycle_life := 6000,
          capex_per_kwh := 500, opex_annual_percent := 1, degradation_annual := 0 }
        0 1)
      240 (6 / 5) 999 12 12
      (-21543396064480234827591373816640 / 278218429446951548637196401)
      (by norm_num) hv12] at hcontra
    rw [show (999 : Nat) = 998 + 1 from rfl] at hcontra
    rw [optLoopWith_step_lt
      (BESS.claimedCandidateNpv
        [0, 1000, 1000, 1000, 1000, 1000, 1000, 1000, 1000, 1000, 1000, 1000]
        [120, 120, 120, 120, 120, 120, 120, 120, 120, 120, 120, 120]
        { dod := 1, c_rate := 1, efficiency := 1, cycle_life := 6000,
          capex_per_kwh := 500, opex_annual_percent := 1, degradation_annual := 0 }
        0 1)
      240 (6 / 5) 998 (12 + 6 / 5) 12
      (-21543396064480234827591373816640 / 278218429446951548637196401)
      (-20341470012835276328734388874944 / 278218429446951548637196401)
      (by norm_num) hv13 (by norm_num)] at hcontra
    obtain ⟨br, hbr, hle⟩ := optLoopWith_ge
      (BESS.claimedCandidateNpv
        [0, 1000, 1000, 1000, 1000, 1000, 1000, 1000, 1000, 1000, 1000, 1000]
        [120, 120, 120, 120, 120, 120, 120, 120, 120, 120, 120, 120]
        { dod := 1, c_rate := 1, efficiency := 1, cycle_life := 6000,
          capex_per_kwh := 500, opex_annual_percent := 1, degradation_annual := 0 }
        0 1)
      240 (6 / 5) 998 (12 + 6 / 5 + 6 / 5)
      (-20341470012835276328734388874944 / 278218429446951548637196401)
      (12 + 6 / 5) 12 hv13 hcontra
    rw [hv12] at hbr
    have heq := Except.ok.inj hbr
    rw [← heq] at hle
    norm_num at hle
